import Mathlib

/-!
Verification of the ls4-scheduler core routines against their design
specification.  The C sources are shallowly embedded: C `double` becomes `ℚ`
(exact arithmetic; every concrete input used below is exactly representable
as a double, so the embedded computations coincide with the C ones), C `int`
becomes `Int`, and the in-place mutation of `Field` records becomes explicit
state passing.  Logging (`fprintf`) is omitted; it does not affect results.
-/

namespace LS4

/-! ### Constants from scheduler.h and scheduler_camera.h -/

abbrev TOO_LATE_STATUS : Int := -1
abbrev NOT_DOABLE_STATUS : Int := 0
abbrev READY_STATUS : Int := 1
abbrev DO_NOW_STATUS : Int := 2

abbrev DARK_CODE : Int := 0
abbrev SKY_CODE : Int := 1
abbrev FOCUS_CODE : Int := 2
abbrev OFFSET_CODE : Int := 3
abbrev EVENING_FLAT_CODE : Int := 4
abbrev MORNING_FLAT_CODE : Int := 5
abbrev DOME_FLAT_CODE : Int := 6
abbrev LIGO_CODE : Int := 7

abbrev NO_SURVEY_CODE : Int := 0
abbrev TNO_SURVEY_CODE : Int := 1
abbrev SNE_SURVEY_CODE : Int := 2
abbrev MUSTDO_SURVEY_CODE : Int := 3
abbrev LIGO_SURVEY_CODE : Int := 4

/-- MIN_INTERVAL in scheduler.h is `0.0` (the commented value 900.0/3600.0 is
dead text). -/
def MIN_INTERVAL : ℚ := 0

/-- MIN_EXECUTION_TIME is 0.029 hours. -/
def MIN_EXECUTION_TIME : ℚ := 29 / 1000

/-- STARTUP_TIME is 0.0 hours (the commented 0.5 is dead text). -/
def STARTUP_TIME : ℚ := 0

/-- USE_12DEG_START is 1 in scheduler.h. -/
def USE_12DEG_START : Bool := true

/-- READOUT_TIME_SEC from scheduler_camera.h. -/
def READOUT_TIME_SEC : ℚ := 40

/-- TRANSFER_TIME_SEC from scheduler_camera.h. -/
def TRANSFER_TIME_SEC : ℚ := 10

/-- enum Selection_Code from scheduler.h. -/
inductive SelectionCode where
  | NOT_SELECTED
  | FIRST_DO_NOW_FLAT
  | FIRST_DO_NOW_DARK
  | FIRST_DO_NOW
  | FIRST_READY_PAIR
  | FIRST_LATE_PAIR
  | FIRST_NOT_READY_LATE_PAIR
  | FIRST_NOT_READY_NOT_LATE_PAIR
  | LEAST_TIME_LATE_MUST_DO
  | LEAST_TIME_READY_MUST_DO
  | LEAST_TIME_READY
  | MOST_TIME_READY_LATE
  deriving DecidableEq, Repr

/-! ### The Field record (struct Field, scheduler.h)

Only the members read or written by the routines verified here are kept.
Identity, position and per-visit history members (ra, dec, script_line,
ut arrays, ...) are omitted; none of the embedded routines touches them
(paired_fields, which reads ra/dec, is abstracted as a Boolean parameter). -/

structure Field where
  status : Int
  doable : Int
  selection_code : SelectionCode
  shutter : Int
  interval : ℚ
  n_required : Int
  survey_code : Int
  jd_rise : ℚ
  jd_set : ℚ
  jd_next : ℚ
  n_done : Int
  time_up : ℚ
  time_required : ℚ
  time_left : ℚ
  deriving DecidableEq, Repr

/-! ### update_field_status (scheduler.c, lines 2803-2912)

The C function mutates `f` and returns the new status; the new status is
always stored into `f->status`, so returning the updated record loses
nothing. -/

def update_field_status (f : Field) (jd : ℚ) (bad_weather : Bool) : Field :=
  if f.doable = 0 then
    { f with status := NOT_DOABLE_STATUS }
  else if f.n_done = f.n_required then
    { f with doable := 0, status := NOT_DOABLE_STATUS }
  else if jd < f.jd_rise then
    { f with status := NOT_DOABLE_STATUS }
  else if jd > f.jd_set then
    { f with doable := 0, status := NOT_DOABLE_STATUS }
  else if f.jd_next - jd > MIN_EXECUTION_TIME / 24 then
    { f with status := NOT_DOABLE_STATUS }
  else if f.shutter = DARK_CODE ∨ f.shutter = DOME_FLAT_CODE then
    { f with status := DO_NOW_STATUS }
  else if f.shutter = EVENING_FLAT_CODE ∨ f.shutter = MORNING_FLAT_CODE ∨
      f.shutter = FOCUS_CODE ∨ f.shutter = OFFSET_CODE then
    if ¬ bad_weather then
      { f with status := DO_NOW_STATUS }
    else
      { f with status := NOT_DOABLE_STATUS }
  else
    let tr : ℚ := ((f.n_required - f.n_done : Int) : ℚ) * f.interval
    let tu : ℚ := (f.jd_set - jd) * 24
    let tl : ℚ := tu - tr
    if tl < 0 then
      { f with time_required := tr, time_up := tu, time_left := tl,
               status := TOO_LATE_STATUS }
    else
      { f with time_required := tr, time_up := tu, time_left := tl,
               status := READY_STATUS }

/-! ### shorten_interval (scheduler.c, lines 2739-2758) -/

def shorten_interval (f : Field) : Field :=
  let new_time_required : ℚ := f.time_up
  let new_interval : ℚ := new_time_required / ((f.n_required - f.n_done : Int) : ℚ)
  if new_interval > MIN_INTERVAL then
    { f with time_required := new_time_required, interval := new_interval,
             time_left := 0 }
  else
    { f with doable := 0 }

/-! ### get_ha (scheduler.c, lines 3542-3552) -/

def get_ha (ra : ℚ) (lst : ℚ) : ℚ :=
  let ha := lst - ra
  if ha ≤ -12 then ha + 24
  else if ha ≥ 12 then ha - 24
  else ha

/-! ### expose_timeout (scheduler_camera.c, lines 411-465)

The C function matches the mode string with strstr; every call site passes
one of the four exact literals, modelled by an enumeration. -/

inductive ExpMode where
  | single
  | first
  | next
  | last
  deriving DecidableEq, Repr

def expose_timeout (exp_mode : ExpMode) (exp_time : ℚ) (wait_flag : Bool) : ℚ :=
  let t : ℚ :=
    if ¬ wait_flag then
      exp_time + READOUT_TIME_SEC
    else
      match exp_mode with
      | ExpMode.single => exp_time + READOUT_TIME_SEC + TRANSFER_TIME_SEC
      | ExpMode.first => exp_time + READOUT_TIME_SEC
      | ExpMode.next =>
          if exp_time + READOUT_TIME_SEC > TRANSFER_TIME_SEC then exp_time
          else TRANSFER_TIME_SEC
      | ExpMode.last => TRANSFER_TIME_SEC
  t + 5

/-- The timeout table of spec section 4.5, written from the spec words. -/
def spec_expose_timeout (exp_mode : ExpMode) (exp_time : ℚ) (wait_flag : Bool) : ℚ :=
  if wait_flag then
    match exp_mode with
    | ExpMode.single => exp_time + READOUT_TIME_SEC + TRANSFER_TIME_SEC + 5
    | ExpMode.first => exp_time + READOUT_TIME_SEC + 5
    | ExpMode.next => max (exp_time + READOUT_TIME_SEC) TRANSFER_TIME_SEC + 5
    | ExpMode.last => TRANSFER_TIME_SEC + 5
  else
    match exp_mode with
    | ExpMode.single => exp_time + READOUT_TIME_SEC + 5
    | ExpMode.first => exp_time + READOUT_TIME_SEC + 5
    | ExpMode.next => exp_time + READOUT_TIME_SEC + 5
    | ExpMode.last => READOUT_TIME_SEC + 5

/-! ### The night window bounds of init_night (scheduler.c, lines 1414-1460)

init_night first fills the twilight members via print_tonight and then
derives the observing-window bounds; the derivation is modelled as a
function of the filled record. -/

structure NightTimes where
  ut_evening12 : ℚ
  ut_morning12 : ℚ
  lst_evening12 : ℚ
  lst_morning12 : ℚ
  jd_evening12 : ℚ
  jd_morning12 : ℚ
  ut_evening18 : ℚ
  ut_morning18 : ℚ
  lst_evening18 : ℚ
  lst_morning18 : ℚ
  jd_evening18 : ℚ
  jd_morning18 : ℚ
  ut_start : ℚ
  ut_end : ℚ
  lst_start : ℚ
  lst_end : ℚ
  jd_start : ℚ
  jd_end : ℚ
  deriving DecidableEq, Repr

def init_night (nt : NightTimes) : NightTimes :=
  let nt1 :=
    if USE_12DEG_START then
      { nt with
        ut_start := nt.ut_evening12 + STARTUP_TIME
        ut_end := nt.ut_morning12 - MIN_EXECUTION_TIME
        lst_start := nt.lst_evening12 + STARTUP_TIME
        lst_end := nt.lst_morning12 - MIN_EXECUTION_TIME
        jd_start := nt.jd_evening12 + STARTUP_TIME / 24
        jd_end := nt.jd_morning12 - MIN_EXECUTION_TIME / 24 }
    else
      { nt with
        ut_start := nt.ut_evening18 + STARTUP_TIME
        ut_end := nt.ut_morning18 - MIN_EXECUTION_TIME
        lst_start := nt.lst_evening18 + STARTUP_TIME
        lst_end := nt.lst_morning18 - MIN_EXECUTION_TIME
        jd_start := nt.jd_evening18 + STARTUP_TIME / 24
        jd_end := nt.jd_morning18 - MIN_EXECUTION_TIME / 24 }
  let nt2 := if nt1.ut_start > 24 then { nt1 with ut_start := nt1.ut_start - 24 } else nt1
  let nt3 := if nt2.lst_start > 24 then { nt2 with lst_start := nt2.lst_start - 24 } else nt2
  let nt4 := if nt3.ut_end < 0 then { nt3 with ut_end := nt3.ut_end + 24 } else nt3
  if nt4.lst_end < 0 then { nt4 with lst_end := nt4.lst_end + 24 } else nt4

/-! ### The bad-readout recovery step of observe_next_field
(scheduler.c, lines 1964-1974)

On a failed wait_camera_readout, the C code runs
`if(index_prev>=0 && f_prev->n_done>0){ f_prev->n_done--; f_prev->jd_next=jd; }`
where f_prev = sequence+index_prev (the caller guarantees
index_prev < num_fields). -/

def bad_readout_update (sequence : List Field) (index_prev : Int) (jd : ℚ) :
    List Field :=
  if h : 0 ≤ index_prev ∧ index_prev.toNat < sequence.length then
    let f_prev := sequence.get ⟨index_prev.toNat, h.2⟩
    if f_prev.n_done > 0 then
      sequence.set index_prev.toNat
        { f_prev with n_done := f_prev.n_done - 1, jd_next := jd }
    else
      sequence
  else
    sequence

/-! ### get_next_field (scheduler.c, lines 2329-2700)

The function mutates the sequence array in place and returns an index
(or -1).  The two TOO_LATE scans iterate `for(i=0;i<=num_fields;i++)`,
so they also read the array entry one past the last field; that entry
(arbitrary adjacent memory in C) is the explicit parameter `oob`, and a
selection state is the live list together with that entry.  The branch
paths that make the C code write to `sequence[-1]` (an index variable
left at its -1 initial value) fall outside the modelled array and leave
the state unchanged here.  `paired_fields` (a separate source function
whose trigonometric test no claim touches) is abstracted as a Boolean
parameter. -/

structure SelState where
  fields : List Field
  oob : Field
  deriving Repr

def getEntry (st : SelState) (k : Nat) : Field :=
  if h : k < st.fields.length then st.fields.get ⟨k, h⟩ else st.oob

def setEntry (st : SelState) (k : Nat) (f : Field) : SelState :=
  if k < st.fields.length then { st with fields := st.fields.set k f }
  else { st with oob := f }

structure SelectResult where
  index : Int
  state : SelState
  deriving Repr

/-- n_left as computed in get_next_field: `n_left = f->n_required - f->n_done`. -/
def n_left (f : Field) : Int := f.n_required - f.n_done

/-- the scan pattern `if(p(f) && f->time_left < time_left_min){i_min=i; ...}`
running over a list with a position counter. -/
def scan_min_tl (p : Field → Bool) : List Field → Int → Int × ℚ → Int × ℚ
  | [], _, acc => acc
  | f :: rest, i, acc =>
      if p f ∧ f.time_left < acc.2 then scan_min_tl p rest (i + 1) (i, f.time_left)
      else scan_min_tl p rest (i + 1) acc

/-- the scan pattern `if(p(f) && f->time_left > time_left_max){i_max=i; ...}`. -/
def scan_max_tl (p : Field → Bool) : List Field → Int → Int × ℚ → Int × ℚ
  | [], _, acc => acc
  | f :: rest, i, acc =>
      if p f ∧ f.time_left > acc.2 then scan_max_tl p rest (i + 1) (i, f.time_left)
      else scan_max_tl p rest (i + 1) acc

/-- first index at which `p` holds (`if(p(f) && i_min==-1) i_min=i;`),
-1 when none. -/
def first_idx (p : Field → Bool) : List Field → Int → Int
  | [], _ => -1
  | f :: rest, i => if p f then i else first_idx p rest (i + 1)

/-- the running-minimum pattern `if(p(f)){ if(n_left<m) m=n_left; }`. -/
def fold_nleft_min (p : Field → Bool) : List Field → Int → Int
  | [], m => m
  | f :: rest, m =>
      if p f ∧ n_left f < m then fold_nleft_min p rest (n_left f)
      else fold_nleft_min p rest m

def is_ready_must_do (f : Field) : Bool :=
  decide (f.status = READY_STATUS ∧ f.survey_code = MUSTDO_SURVEY_CODE)

def is_do_now (f : Field) : Bool := decide (f.status = DO_NOW_STATUS)

def is_do_now_dark (f : Field) : Bool :=
  decide (f.status = DO_NOW_STATUS ∧ f.shutter = DARK_CODE)

def is_do_now_flat (f : Field) : Bool :=
  decide (f.status = DO_NOW_STATUS ∧ (f.shutter = DOME_FLAT_CODE ∨
    f.shutter = EVENING_FLAT_CODE ∨ f.shutter = MORNING_FLAT_CODE))

/-- READY fields counted by the `else if` arm after the must-do arm,
hence READY and not must-do. -/
def is_ready_other (f : Field) : Bool :=
  decide (f.status = READY_STATUS ∧ f.survey_code ≠ MUSTDO_SURVEY_CODE)

def is_too_late (f : Field) : Bool := decide (f.status = TOO_LATE_STATUS)

def is_too_late_must_do (f : Field) : Bool :=
  decide (f.status = TOO_LATE_STATUS ∧ f.survey_code = MUSTDO_SURVEY_CODE)

/-- the first pass of get_next_field: every field's status updated in place. -/
def updated_fields (sequence : List Field) (jd : ℚ) (w : Bool) : List Field :=
  sequence.map (fun f => update_field_status f jd w)

def get_next_field (sequence : List Field) (i_prev : Int) (jd : ℚ)
    (bad_weather : Bool) (oob : Field) (paired_fields : Field → Field → Bool) :
    SelectResult :=
  let num_fields : Int := (sequence.length : Int)
  let fs : List Field := updated_fields sequence jd bad_weather
  let st : SelState := ⟨fs, oob⟩
  let n_ready_must_do := fs.countP is_ready_must_do
  let n_left_min_must_do := fold_nleft_min is_ready_must_do fs 100000
  let n_do_now := fs.countP is_do_now
  let i_min_do_now := first_idx is_do_now fs 0
  let i_min_dark := first_idx is_do_now_dark fs 0
  let i_min_flat := first_idx is_do_now_flat fs 0
  let n_ready := fs.countP is_ready_other
  let n_left_min := fold_nleft_min is_ready_other fs 100000
  let n_late := fs.countP is_too_late
  let n_late_must_do := fs.countP is_too_late_must_do
  if 0 < n_ready_must_do then
    let r := scan_min_tl
      (fun f => is_ready_must_do f &&
        decide (f.n_required = 6 ∨ n_left f = n_left_min_must_do)) fs 0 (-1, 10000)
    if 0 ≤ r.1 then
      { index := r.1,
        state := setEntry st r.1.toNat
          { getEntry st r.1.toNat with
              selection_code := SelectionCode.LEAST_TIME_READY_MUST_DO } }
    else
      { index := r.1, state := st }
  else if 0 < n_late_must_do then
    let r := scan_min_tl is_too_late_must_do (fs ++ [oob]) 0 (-1, 10000)
    if 0 ≤ r.1 then
      let f1 := update_field_status (shorten_interval (getEntry st r.1.toNat))
        jd bad_weather
      { index := r.1,
        state := setEntry st r.1.toNat
          { f1 with selection_code := SelectionCode.LEAST_TIME_LATE_MUST_DO } }
    else
      { index := r.1, state := st }
  else if 0 < n_do_now then
    if 0 ≤ i_min_flat then
      { index := i_min_flat,
        state := setEntry st i_min_flat.toNat
          { getEntry st i_min_flat.toNat with
              selection_code := SelectionCode.FIRST_DO_NOW_FLAT } }
    else if 0 ≤ i_min_dark then
      { index := i_min_dark,
        state := setEntry st i_min_dark.toNat
          { getEntry st i_min_dark.toNat with
              selection_code := SelectionCode.FIRST_DO_NOW_DARK } }
    else if 0 ≤ i_min_do_now then
      { index := i_min_do_now,
        state := setEntry st i_min_do_now.toNat
          { getEntry st i_min_do_now.toNat with
              selection_code := SelectionCode.FIRST_DO_NOW } }
    else
      { index := i_min_do_now, state := st }
  else if 0 ≤ i_prev ∧ i_prev < num_fields - 1 ∧
      paired_fields (getEntry st (i_prev.toNat + 1)) (getEntry st i_prev.toNat) ∧
      (getEntry st (i_prev.toNat + 1)).doable ≠ 0 then
    let kn := i_prev.toNat + 1
    let f_next := getEntry st kn
    if f_next.status = READY_STATUS then
      { index := i_prev + 1,
        state := setEntry st kn
          { f_next with selection_code := SelectionCode.FIRST_READY_PAIR } }
    else if f_next.status = TOO_LATE_STATUS then
      let f1 := update_field_status (shorten_interval f_next) jd bad_weather
      if f1.status = READY_STATUS then
        { index := i_prev + 1,
          state := setEntry st kn
            { f1 with selection_code := SelectionCode.FIRST_LATE_PAIR } }
      else
        { index := i_prev + 1,
          state := setEntry st kn
            { f1 with selection_code := SelectionCode.FIRST_NOT_READY_LATE_PAIR } }
    else
      { index := i_prev + 1,
        state := setEntry st kn
          { f_next with
              selection_code := SelectionCode.FIRST_NOT_READY_NOT_LATE_PAIR } }
  else if 0 < n_ready then
    let r := scan_min_tl
      (fun f => decide (f.status = READY_STATUS) && decide (n_left f = n_left_min))
      fs 0 (-1, 10000)
    if 0 ≤ r.1 then
      { index := r.1,
        state := setEntry st r.1.toNat
          { getEntry st r.1.toNat with
              selection_code := SelectionCode.LEAST_TIME_READY } }
    else
      { index := r.1, state := st }
  else if 0 < n_late then
    let r := scan_max_tl is_too_late (fs ++ [oob]) 0 (-1, -1000)
    if 0 ≤ r.1 then
      let f1 := update_field_status (shorten_interval (getEntry st r.1.toNat))
        jd bad_weather
      if f1.status = READY_STATUS then
        { index := r.1,
          state := setEntry st r.1.toNat
            { f1 with selection_code := SelectionCode.MOST_TIME_READY_LATE } }
      else
        { index := -1, state := setEntry st r.1.toNat f1 }
    else
      { index := -1, state := st }
  else
    { index := -1, state := st }

/-! ### Concrete inputs used in the theorems below -/

/-- an all-zero field record. -/
def zf : Field := ⟨0, 0, SelectionCode.NOT_SELECTED, 0, 0, 0, 0, 0, 0, 0, 0, 0, 0, 0⟩

/-- a pairing predicate that never matches (no paired fields present). -/
def pairF : Field → Field → Bool := fun _ _ => false

/-- a MustDo sky field that is Ready at jd = 0 with time_left = 22. -/
def mdf : Field := { zf with
  doable := 1, shutter := SKY_CODE,
  survey_code := MUSTDO_SURVEY_CODE, n_required := 2, interval := 1,
  jd_rise := -1, jd_set := 1 }

/-- a dark field that is DoNow at jd = 0. -/
def dk : Field := { zf with
  doable := 1, shutter := DARK_CODE, n_required := 1,
  jd_rise := -1, jd_set := 1 }

/-- a MustDo sky field that at jd = 0 is TooLate with time_up = 0, so interval
shortening must fail (new interval 0 is not > MIN_INTERVAL). -/
def fX : Field := { zf with
  doable := 1, shutter := SKY_CODE,
  survey_code := MUSTDO_SURVEY_CODE, n_required := 2, interval := 1,
  jd_rise := -1, jd_set := 0 }

/-- Ready MustDo at jd = 0 with time_left = 3 and visits-remaining 2. -/
def fA : Field := { zf with
  doable := 1, shutter := SKY_CODE,
  survey_code := MUSTDO_SURVEY_CODE, n_required := 5, n_done := 3,
  interval := 21/2, jd_rise := -1, jd_set := 1 }

/-- Ready MustDo at jd = 0 with time_left = 5 and visits-remaining 1. -/
def fB : Field := { zf with
  doable := 1, shutter := SKY_CODE,
  survey_code := MUSTDO_SURVEY_CODE, n_required := 3, n_done := 2,
  interval := 19, jd_rise := -1, jd_set := 1 }

/-- a MustDo sky field that at jd = 0 is TooLate with time_left = -8 and
time_up = 12 (so interval shortening succeeds). -/
def fLate : Field := { zf with
  doable := 1, shutter := SKY_CODE,
  survey_code := MUSTDO_SURVEY_CODE, n_required := 2, interval := 10,
  jd_rise := -1, jd_set := 1/2 }

/-- stale memory one past the end of the field array: a record that happens
to look like a TooLate MustDo field with a very small time_left. -/
def oobLate : Field := { zf with
  status := TOO_LATE_STATUS,
  survey_code := MUSTDO_SURVEY_CODE, time_left := -20, time_up := 5,
  doable := 1, n_required := 1, jd_rise := -1, jd_set := 1, shutter := SKY_CODE }

/-- night times whose 12-degree twilight LST span is 14 hours. -/
def ntX : NightTimes := ⟨0, 0, 6, 20, 0, 0, 0, 0, 0, 0, 0, 0, 0, 0, 0, 0, 0, 0⟩

/-- night times with no wrap on any of the four window bounds. -/
def ntW : NightTimes := ⟨5, 10, 6, 20, 0, 0, 0, 0, 0, 0, 0, 0, 0, 0, 0, 0, 0, 0⟩

/-- a previous field whose last visit was already rolled back (n_done = 0). -/
def fP : Field := { zf with n_done := 0 }

/-- a previous field with two completed visits. -/
def fQ : Field := { zf with n_done := 2, jd_next := 3 }

/-! ### Theorems -/

/-- the minimum scan never increases the running minimum. -/
theorem scan_min_tl_snd_le (p : Field → Bool) (l : List Field) (i0 : Int)
    (acc : Int × ℚ) : (scan_min_tl p l i0 acc).2 ≤ acc.2 := by
  induction l generalizing i0 acc with
  | nil => simp [scan_min_tl]
  | cons f rest ih =>
    simp only [scan_min_tl]
    split_ifs with h
    · exact le_trans (ih (i0 + 1) (i0, f.time_left)) (le_of_lt h.2)
    · exact ih (i0 + 1) acc

/-- the final minimum is at most the time_left of every candidate. -/
theorem scan_min_tl_le_mem (p : Field → Bool) (l : List Field) (i0 : Int)
    (acc : Int × ℚ) :
    ∀ f ∈ l, p f → (scan_min_tl p l i0 acc).2 ≤ f.time_left := by
  induction l generalizing i0 acc with
  | nil => intro f hf; exact absurd hf (List.not_mem_nil f)
  | cons g rest ih =>
    intro f hf hp
    simp only [scan_min_tl]
    rcases List.mem_cons.mp hf with hEq | hMem
    · subst hEq
      split_ifs with h
      · exact scan_min_tl_snd_le p rest (i0 + 1) (i0, f.time_left)
      · have hnlt : ¬ f.time_left < acc.2 := fun hlt => h ⟨hp, hlt⟩
        exact le_trans (scan_min_tl_snd_le p rest (i0 + 1) acc) (not_lt.mp hnlt)
    · split_ifs with h
      · exact ih (i0 + 1) (i0, g.time_left) f hMem hp
      · exact ih (i0 + 1) acc f hMem hp

/-- if some candidate beats the running minimum, the final minimum is
strictly below the initial one. -/
theorem scan_min_tl_lt_of_exists (p : Field → Bool) (l : List Field) (i0 : Int)
    (acc : Int × ℚ) (h : ∃ f ∈ l, p f ∧ f.time_left < acc.2) :
    (scan_min_tl p l i0 acc).2 < acc.2 := by
  induction l generalizing i0 acc with
  | nil =>
    obtain ⟨f, hf, _⟩ := h
    exact absurd hf (List.not_mem_nil f)
  | cons g rest ih =>
    simp only [scan_min_tl]
    split_ifs with hcond
    · exact lt_of_le_of_lt (scan_min_tl_snd_le p rest (i0 + 1) (i0, g.time_left))
        hcond.2
    · obtain ⟨f, hf, hp, hlt⟩ := h
      rcases List.mem_cons.mp hf with hEq | hMem
      · exact absurd ⟨hEq ▸ hp, hEq ▸ hlt⟩ hcond
      · exact ih (i0 + 1) acc ⟨f, hMem, hp, hlt⟩

/-- if the running minimum never improved, the accumulator survives whole. -/
theorem scan_min_tl_eq_acc (p : Field → Bool) (l : List Field) (i0 : Int)
    (acc : Int × ℚ) (h : (scan_min_tl p l i0 acc).2 = acc.2) :
    scan_min_tl p l i0 acc = acc := by
  induction l generalizing i0 acc with
  | nil => simp [scan_min_tl]
  | cons g rest ih =>
    simp only [scan_min_tl] at h ⊢
    split_ifs at h ⊢ with hcond
    · exfalso
      have hle := scan_min_tl_snd_le p rest (i0 + 1) (i0, g.time_left)
      rw [h] at hle
      exact absurd hcond.2 (not_lt.mpr hle)
    · exact ih (i0 + 1) acc h

/-- the scan result is the untouched accumulator or a candidate entry
(position, time_left) that beat the initial minimum. -/
theorem scan_min_tl_form (p : Field → Bool) (l : List Field) (i0 : Int)
    (acc : Int × ℚ) :
    scan_min_tl p l i0 acc = acc ∨
    ∃ k : Nat, ∃ hk : k < l.length, p (l.get ⟨k, hk⟩) ∧
      (l.get ⟨k, hk⟩).time_left < acc.2 ∧
      scan_min_tl p l i0 acc = (i0 + k, (l.get ⟨k, hk⟩).time_left) := by
  induction l generalizing i0 acc with
  | nil => left; simp [scan_min_tl]
  | cons g rest ih =>
    simp only [scan_min_tl]
    split_ifs with hcond
    · rcases ih (i0 + 1) (i0, g.time_left) with hA | ⟨k, hk, hp, hlt, hEq⟩
      · right
        refine ⟨0, by simp, by simpa using hcond.1, by simpa using hcond.2, ?_⟩
        rw [hA]
        simp
      · right
        refine ⟨k + 1, by simpa using hk, by simpa using hp, ?_, ?_⟩
        · have : (rest.get ⟨k, hk⟩).time_left < g.time_left := hlt
          simpa using lt_trans this hcond.2
        · rw [hEq]
          simp only [List.get_cons_succ, Prod.mk.injEq]
          exact ⟨by push_cast; ring, trivial⟩
    · rcases ih (i0 + 1) acc with hA | ⟨k, hk, hp, hlt, hEq⟩
      · left; exact hA
      · right
        refine ⟨k + 1, by simpa using hk, by simpa using hp, by simpa using hlt, ?_⟩
        rw [hEq]
        simp only [List.get_cons_succ, Prod.mk.injEq]
        exact ⟨by push_cast; ring, trivial⟩

/-- ties go to the earliest position: any candidate whose time_left equals
the final minimum sits at or after the returned position. -/
theorem scan_min_tl_first (p : Field → Bool) (l : List Field) (i0 : Int)
    (acc : Int × ℚ) (hacc : acc.1 ≤ i0) :
    ∀ k : Nat, ∀ hk : k < l.length, p (l.get ⟨k, hk⟩) →
      (l.get ⟨k, hk⟩).time_left = (scan_min_tl p l i0 acc).2 →
      (scan_min_tl p l i0 acc).1 ≤ i0 + k := by
  induction l generalizing i0 acc with
  | nil => intro k hk; simp at hk
  | cons g rest ih =>
    intro k hk hp htl
    simp only [scan_min_tl] at htl ⊢
    cases k with
    | zero =>
      have hg : (g :: rest).get ⟨0, hk⟩ = g := rfl
      rw [hg] at hp htl
      split_ifs at htl ⊢ with hcond
      · have hle := scan_min_tl_snd_le p rest (i0 + 1) (i0, g.time_left)
        have hres := scan_min_tl_eq_acc p rest (i0 + 1) (i0, g.time_left)
          (le_antisymm hle (htl ▸ le_refl _))
        rw [hres]
        simp
      · have hnlt : ¬ g.time_left < acc.2 := fun hlt => hcond ⟨hp, hlt⟩
        have hle := scan_min_tl_snd_le p rest (i0 + 1) acc
        have hres := scan_min_tl_eq_acc p rest (i0 + 1) acc
          (le_antisymm hle (htl ▸ not_lt.mp hnlt))
        rw [hres]
        simpa using hacc
    | succ n =>
      have hg : (g :: rest).get ⟨n + 1, hk⟩ = rest.get ⟨n, by simpa using hk⟩ := rfl
      rw [hg] at hp htl
      split_ifs at htl ⊢ with hcond
      · have hstep := ih (i0 + 1) (i0, g.time_left) (by omega) n
          (by simpa using hk) hp htl
        push_cast at hstep ⊢
        omega
      · have hstep := ih (i0 + 1) acc (by omega) n (by simpa using hk) hp htl
        push_cast at hstep ⊢
        omega

/-- the running n_left minimum never increases. -/
theorem fold_nleft_min_le_init (p : Field → Bool) (l : List Field) (m : Int) :
    fold_nleft_min p l m ≤ m := by
  induction l generalizing m with
  | nil => simp [fold_nleft_min]
  | cons f rest ih =>
    simp only [fold_nleft_min]
    split_ifs with h
    · exact le_trans (ih (n_left f)) (le_of_lt h.2)
    · exact ih m

/-- the final n_left minimum is at most every candidate's n_left. -/
theorem fold_nleft_min_le_mem (p : Field → Bool) (l : List Field) (m : Int) :
    ∀ f ∈ l, p f → fold_nleft_min p l m ≤ n_left f := by
  induction l generalizing m with
  | nil => intro f hf; exact absurd hf (List.not_mem_nil f)
  | cons g rest ih =>
    intro f hf hp
    simp only [fold_nleft_min]
    rcases List.mem_cons.mp hf with hEq | hMem
    · subst hEq
      split_ifs with h
      · exact fold_nleft_min_le_init p rest (n_left f)
      · have hnlt : ¬ n_left f < m := fun hlt => h ⟨hp, hlt⟩
        exact le_trans (fold_nleft_min_le_init p rest m) (not_lt.mp hnlt)
    · split_ifs with h
      · exact ih (n_left g) f hMem hp
      · exact ih m f hMem hp

/-- the final n_left minimum is the initial bound or some candidate's n_left. -/
theorem fold_nleft_min_form (p : Field → Bool) (l : List Field) (m : Int) :
    fold_nleft_min p l m = m ∨
    ∃ f ∈ l, p f ∧ fold_nleft_min p l m = n_left f := by
  induction l generalizing m with
  | nil => left; simp [fold_nleft_min]
  | cons g rest ih =>
    simp only [fold_nleft_min]
    split_ifs with h
    · rcases ih (n_left g) with hA | ⟨f, hf, hp, hEq⟩
      · right; exact ⟨g, List.mem_cons_self g rest, h.1, hA⟩
      · right; exact ⟨f, List.mem_cons_of_mem g hf, hp, hEq⟩
    · rcases ih m with hA | ⟨f, hf, hp, hEq⟩
      · left; exact hA
      · right; exact ⟨f, List.mem_cons_of_mem g hf, hp, hEq⟩

/-- first_idx returns -1 or the position of a matching entry. -/
theorem first_idx_form (p : Field → Bool) (l : List Field) (i0 : Int) :
    first_idx p l i0 = -1 ∨
    ∃ k : Nat, ∃ hk : k < l.length, first_idx p l i0 = i0 + k ∧
      p (l.get ⟨k, hk⟩) := by
  induction l generalizing i0 with
  | nil => left; simp [first_idx]
  | cons g rest ih =>
    simp only [first_idx]
    split_ifs with h
    · right
      refine ⟨0, by simp, by simp, by simpa using h⟩
    · rcases ih (i0 + 1) with hA | ⟨k, hk, hEq, hp⟩
      · left; exact hA
      · right
        refine ⟨k + 1, by simpa using hk, ?_, by simpa using hp⟩
        rw [hEq]
        push_cast
        ring

/-- when a matching entry exists, first_idx starting at a nonnegative
position is nonnegative. -/
theorem first_idx_nonneg (p : Field → Bool) (l : List Field) (i0 : Int)
    (h : ∃ f ∈ l, p f) (hi : 0 ≤ i0) : 0 ≤ first_idx p l i0 := by
  induction l generalizing i0 with
  | nil =>
    obtain ⟨f, hf, _⟩ := h
    exact absurd hf (List.not_mem_nil f)
  | cons g rest ih =>
    simp only [first_idx]
    split_ifs with hg
    · exact hi
    · obtain ⟨f, hf, hp⟩ := h
      rcases List.mem_cons.mp hf with hEq | hMem
      · exact absurd (hEq ▸ hp) hg
      · exact ih (i0 + 1) ⟨f, hMem, hp⟩ (by omega)

/-- reading a selection-state entry below or at the list length is reading
the appended array (the live fields followed by the one-past entry). -/
theorem getEntry_eq_get_append (fs : List Field) (oob : Field) (k : Nat)
    (hk : k < (fs ++ [oob]).length) :
    getEntry ⟨fs, oob⟩ k = (fs ++ [oob]).get ⟨k, hk⟩ := by
  unfold getEntry
  by_cases h : k < fs.length
  · rw [dif_pos h]
    rw [List.get_eq_getElem, List.get_eq_getElem, List.getElem_append_left h]
  · rw [dif_neg h]
    have hlen : k = fs.length := by
      simp only [List.length_append, List.length_singleton] at hk
      omega
    subst hlen
    rw [List.get_eq_getElem, List.getElem_append_right (le_refl _)]
    simp

/-- C1 counterexample: at jd = 0 the list [mdf, dk] has a DoNow dark (dk) and
a Ready MustDo sky field (mdf); the selector returns index 0, whose status is
Ready, not DoNow — the Ready-MustDo tier pre-empts the DoNow dark, refuting
the claim that a DoNow dark/dome-flat is never pre-empted. -/
theorem c1_counterexample :
    (update_field_status dk 0 false).status = DO_NOW_STATUS ∧
    (update_field_status dk 0 false).shutter = DARK_CODE ∧
    (get_next_field [mdf, dk] (-1) 0 false zf pairF).index = 0 ∧
    (update_field_status mdf 0 false).status ≠ DO_NOW_STATUS := by
  norm_num [get_next_field, updated_fields, update_field_status, MIN_EXECUTION_TIME,
    is_ready_must_do, is_do_now, is_do_now_dark, is_do_now_flat, is_ready_other,
    is_too_late, is_too_late_must_do, fold_nleft_min, first_idx, scan_min_tl,
    scan_max_tl, n_left, List.countP, List.countP.go, getEntry, setEntry,
    shorten_interval, MIN_INTERVAL, pairF, zf, mdf, dk]

/-- C2 counterexample: the list [fX] has one TooLate MustDo field whose
interval shortening fails (time_up = 0, so the new interval 0 is not above
MIN_INTERVAL and doable is cleared, leaving the field NotDoable) — yet the
selector still returns its index 0 instead of falling through to the later
tiers as claimed. -/
theorem c2_counterexample :
    (update_field_status fX 0 false).status = TOO_LATE_STATUS ∧
    (update_field_status fX 0 false).survey_code = MUSTDO_SURVEY_CODE ∧
    (get_next_field [fX] (-1) 0 false zf pairF).index = 0 ∧
    (getEntry (get_next_field [fX] (-1) 0 false zf pairF).state 0).doable = 0 ∧
    (getEntry (get_next_field [fX] (-1) 0 false zf pairF).state 0).status =
      NOT_DOABLE_STATUS := by
  norm_num [get_next_field, updated_fields, update_field_status, MIN_EXECUTION_TIME,
    is_ready_must_do, is_do_now, is_do_now_dark, is_do_now_flat, is_ready_other,
    is_too_late, is_too_late_must_do, fold_nleft_min, first_idx, scan_min_tl,
    scan_max_tl, n_left, List.countP, List.countP.go, getEntry, setEntry,
    shorten_interval, MIN_INTERVAL, pairF, zf, fX]

/-- C3 counterexample: fA and fB are both Ready MustDo at jd = 0; fA has
strictly less time_left (3 versus 5), but fA has n_required = 5 and
visits-remaining 2 while the minimum visits-remaining is 1 (fB), so fA is not
a candidate of the first tier scan and the selector returns index 1, not the
least-time_left field 0. -/
theorem c3_counterexample :
    (update_field_status fA 0 false).status = READY_STATUS ∧
    (update_field_status fA 0 false).survey_code = MUSTDO_SURVEY_CODE ∧
    (update_field_status fB 0 false).status = READY_STATUS ∧
    (update_field_status fB 0 false).survey_code = MUSTDO_SURVEY_CODE ∧
    (update_field_status fA 0 false).time_left <
      (update_field_status fB 0 false).time_left ∧
    (get_next_field [fA, fB] (-1) 0 false zf pairF).index = 1 := by
  norm_num [get_next_field, updated_fields, update_field_status, MIN_EXECUTION_TIME,
    is_ready_must_do, is_do_now, is_do_now_dark, is_do_now_flat, is_ready_other,
    is_too_late, is_too_late_must_do, fold_nleft_min, first_idx, scan_min_tl,
    scan_max_tl, n_left, List.countP, List.countP.go, getEntry, setEntry,
    shorten_interval, MIN_INTERVAL, pairF, zf, fA, fB]

/-- C6 counterexample: for the night record ntX the derived observing-window
LST bounds are 6 and 19.971, a span of 13.971 hours; init_night performs no
12-hour contraction. -/
theorem c6_counterexample :
    abs ((init_night ntX).lst_end - (init_night ntX).lst_start) > 12 := by
  have h : (init_night ntX).lst_end - (init_night ntX).lst_start = 13971/1000 := by
    norm_num [init_night, ntX, USE_12DEG_START, STARTUP_TIME, MIN_EXECUTION_TIME]
  rw [h, abs_of_pos (by norm_num)]
  norm_num

/-- C7: expose_timeout diverges from the spec table at (next, wait=true),
where the code waits only exp_time (its own comment says the longer of
exposure-plus-readout and transfer), and at (last, wait=false), where the
code includes exp_time and the table does not. -/
theorem c7_timeout_divergence :
    expose_timeout ExpMode.next 10 true = 15 ∧
    spec_expose_timeout ExpMode.next 10 true = 55 ∧
    expose_timeout ExpMode.last 7 false = 52 ∧
    spec_expose_timeout ExpMode.last 7 false = 45 := by
  norm_num [expose_timeout, spec_expose_timeout, READOUT_TIME_SEC, TRANSFER_TIME_SEC]

/-- C8 counterexample: a previous field exists (index_prev = 0) but has
n_done = 0, and the bad-readout handler leaves the sequence unchanged
instead of decrementing n_done by one. -/
theorem c8_counterexample :
    fP.n_done = 0 ∧ bad_readout_update [fP] 0 5 = [fP] := by
  norm_num [bad_readout_update, fP, zf]

/-- C9 counterexample: ra = 12 and lst = 0 are in [0, 24), yet get_ha returns
exactly +12, violating the claimed bound ha < 12. -/
theorem c9_counterexample :
    (0:ℚ) ≤ 12 ∧ (12:ℚ) < 24 ∧ (0:ℚ) ≤ 0 ∧ (0:ℚ) < 24 ∧
    get_ha 12 0 = 12 ∧ ¬ (get_ha 12 0 < 12) := by
  norm_num [get_ha]

/-- C4: one call of update_field_status establishes exactly the claimed
dispatch, checked case by case in the claim's order: doable = 0 gives
NotDoable; completion clears doable; before rise NotDoable; after set clears
doable; too-early jd_next NotDoable; Dark/DomeFlat DoNow; the four
weather-gated kinds DoNow exactly when the weather is good; all remaining
kinds (Sky) recompute time_required, time_up and time_left and are TooLate
precisely when time_left is negative, else Ready. -/
theorem c4_update_dispatch (f : Field) (jd : ℚ) (w : Bool) :
    (f.doable = 0 →
      update_field_status f jd w = { f with status := NOT_DOABLE_STATUS }) ∧
    (f.doable ≠ 0 → f.n_done = f.n_required →
      update_field_status f jd w =
        { f with doable := 0, status := NOT_DOABLE_STATUS }) ∧
    (f.doable ≠ 0 → f.n_done ≠ f.n_required → jd < f.jd_rise →
      update_field_status f jd w = { f with status := NOT_DOABLE_STATUS }) ∧
    (f.doable ≠ 0 → f.n_done ≠ f.n_required → ¬ jd < f.jd_rise → jd > f.jd_set →
      update_field_status f jd w =
        { f with doable := 0, status := NOT_DOABLE_STATUS }) ∧
    (f.doable ≠ 0 → f.n_done ≠ f.n_required → ¬ jd < f.jd_rise → ¬ jd > f.jd_set →
      f.jd_next - jd > MIN_EXECUTION_TIME / 24 →
      update_field_status f jd w = { f with status := NOT_DOABLE_STATUS }) ∧
    (f.doable ≠ 0 → f.n_done ≠ f.n_required → ¬ jd < f.jd_rise → ¬ jd > f.jd_set →
      ¬ f.jd_next - jd > MIN_EXECUTION_TIME / 24 →
      (f.shutter = DARK_CODE ∨ f.shutter = DOME_FLAT_CODE) →
      update_field_status f jd w = { f with status := DO_NOW_STATUS }) ∧
    (f.doable ≠ 0 → f.n_done ≠ f.n_required → ¬ jd < f.jd_rise → ¬ jd > f.jd_set →
      ¬ f.jd_next - jd > MIN_EXECUTION_TIME / 24 →
      ¬ (f.shutter = DARK_CODE ∨ f.shutter = DOME_FLAT_CODE) →
      (f.shutter = EVENING_FLAT_CODE ∨ f.shutter = MORNING_FLAT_CODE ∨
        f.shutter = FOCUS_CODE ∨ f.shutter = OFFSET_CODE) →
      update_field_status f jd w =
        (if w then { f with status := NOT_DOABLE_STATUS }
         else { f with status := DO_NOW_STATUS })) ∧
    (f.doable ≠ 0 → f.n_done ≠ f.n_required → ¬ jd < f.jd_rise → ¬ jd > f.jd_set →
      ¬ f.jd_next - jd > MIN_EXECUTION_TIME / 24 →
      ¬ (f.shutter = DARK_CODE ∨ f.shutter = DOME_FLAT_CODE) →
      ¬ (f.shutter = EVENING_FLAT_CODE ∨ f.shutter = MORNING_FLAT_CODE ∨
        f.shutter = FOCUS_CODE ∨ f.shutter = OFFSET_CODE) →
      update_field_status f jd w =
        { f with
          time_required := ((f.n_required - f.n_done : Int) : ℚ) * f.interval,
          time_up := (f.jd_set - jd) * 24,
          time_left := (f.jd_set - jd) * 24 -
            ((f.n_required - f.n_done : Int) : ℚ) * f.interval,
          status := if (f.jd_set - jd) * 24 -
              ((f.n_required - f.n_done : Int) : ℚ) * f.interval < 0
            then TOO_LATE_STATUS else READY_STATUS } ∧
      ((update_field_status f jd w).status = TOO_LATE_STATUS ↔
        (f.jd_set - jd) * 24 -
          ((f.n_required - f.n_done : Int) : ℚ) * f.interval < 0)) := by
  refine ⟨?_, ?_, ?_, ?_, ?_, ?_, ?_, ?_⟩
  · intro h1
    simp [update_field_status, h1]
  · intro h1 h2
    simp [update_field_status, h1, h2]
  · intro h1 h2 h3
    simp [update_field_status, h1, h2, h3]
  · intro h1 h2 h3 h4
    simp [update_field_status, h1, h2, h3, h4]
  · intro h1 h2 h3 h4 h5
    simp [update_field_status, h1, h2, h3, h4, h5]
  · intro h1 h2 h3 h4 h5 h6
    simp [update_field_status, h1, h2, h3, h4, h5, h6]
  · intro h1 h2 h3 h4 h5 h6 h7
    cases w <;> simp [update_field_status, h1, h2, h3, h4, h5, h6, h7]
  · intro h1 h2 h3 h4 h5 h6 h7
    have hEq : update_field_status f jd w =
        { f with
          time_required := ((f.n_required - f.n_done : Int) : ℚ) * f.interval,
          time_up := (f.jd_set - jd) * 24,
          time_left := (f.jd_set - jd) * 24 -
            ((f.n_required - f.n_done : Int) : ℚ) * f.interval,
          status := if (f.jd_set - jd) * 24 -
              ((f.n_required - f.n_done : Int) : ℚ) * f.interval < 0
            then TOO_LATE_STATUS else READY_STATUS } := by
      simp only [update_field_status, if_neg h1, if_neg h2, if_neg h3, if_neg h4,
        if_neg h5, if_neg h6, if_neg h7]
      split_ifs <;> rfl
    refine ⟨hEq, ?_⟩
    rw [hEq]
    show (if (f.jd_set - jd) * 24 - ((f.n_required - f.n_done : Int) : ℚ) * f.interval < 0
        then TOO_LATE_STATUS else READY_STATUS) = TOO_LATE_STATUS ↔
      (f.jd_set - jd) * 24 - ((f.n_required - f.n_done : Int) : ℚ) * f.interval < 0
    split_ifs with h8
    · exact iff_of_true rfl h8
    · exact iff_of_false (by decide) h8

/-- C4 witness at a concrete field with doable = 0. -/
theorem c4_witness :
    update_field_status zf 0 false = { zf with status := NOT_DOABLE_STATUS } :=
  (c4_update_dispatch zf 0 false).1 rfl

/-- C5: updating a field's status twice with the same jd and weather flag
gives the same field (and hence the same status) as updating it once. -/
theorem c5_update_idempotent (f : Field) (jd : ℚ) (w : Bool) :
    update_field_status (update_field_status f jd w) jd w =
      update_field_status f jd w := by
  by_cases h1 : f.doable = 0
  · simp [update_field_status, h1]
  by_cases h2 : f.n_done = f.n_required
  · simp [update_field_status, h1, h2]
  by_cases h3 : jd < f.jd_rise
  · simp [update_field_status, h1, h2, h3]
  by_cases h4 : jd > f.jd_set
  · simp [update_field_status, h1, h2, h3, h4]
  by_cases h5 : f.jd_next - jd > MIN_EXECUTION_TIME / 24
  · simp [update_field_status, h1, h2, h3, h4, h5]
  by_cases h6 : f.shutter = DARK_CODE ∨ f.shutter = DOME_FLAT_CODE
  · simp [update_field_status, h1, h2, h3, h4, h5, h6]
  by_cases h7 : f.shutter = EVENING_FLAT_CODE ∨ f.shutter = MORNING_FLAT_CODE ∨
      f.shutter = FOCUS_CODE ∨ f.shutter = OFFSET_CODE
  · by_cases hw : w = true
    · simp [update_field_status, h1, h2, h3, h4, h5, h6, h7, hw]
    · simp [update_field_status, h1, h2, h3, h4, h5, h6, h7, hw]
  by_cases h8 : (f.jd_set - jd) * 24 <
      ((f.n_required : ℚ) - (f.n_done : ℚ)) * f.interval
  · simp [update_field_status, h1, h2, h3, h4, h5, h6, h7, h8]
  · simp [update_field_status, h1, h2, h3, h4, h5, h6, h7, h8]

/-- C6 amended: init_night performs no 12-hour contraction.  When none of the
four 24-hour wraps fires, the observing-window LST span equals the raw
twilight span minus MIN_EXECUTION_TIME and STARTUP_TIME, whatever its size. -/
theorem c6_amended_no_contraction (nt : NightTimes)
    (h1 : ¬ nt.ut_evening12 + STARTUP_TIME > 24)
    (h2 : ¬ nt.lst_evening12 + STARTUP_TIME > 24)
    (h3 : ¬ nt.ut_morning12 - MIN_EXECUTION_TIME < 0)
    (h4 : ¬ nt.lst_morning12 - MIN_EXECUTION_TIME < 0) :
    (init_night nt).lst_start = nt.lst_evening12 + STARTUP_TIME ∧
    (init_night nt).lst_end = nt.lst_morning12 - MIN_EXECUTION_TIME ∧
    (init_night nt).lst_end - (init_night nt).lst_start =
      nt.lst_morning12 - nt.lst_evening12 - MIN_EXECUTION_TIME - STARTUP_TIME := by
  unfold init_night USE_12DEG_START
  simp only [if_true, if_neg h1, if_neg h2, if_neg h3, if_neg h4]
  refine ⟨trivial, trivial, by ring⟩

/-- C6 witness: a concrete no-wrap night record. -/
theorem c6_witness :
    (init_night ntW).lst_start = ntW.lst_evening12 + STARTUP_TIME ∧
    (init_night ntW).lst_end = ntW.lst_morning12 - MIN_EXECUTION_TIME ∧
    (init_night ntW).lst_end - (init_night ntW).lst_start =
      ntW.lst_morning12 - ntW.lst_evening12 - MIN_EXECUTION_TIME - STARTUP_TIME :=
  c6_amended_no_contraction ntW
    (by norm_num [ntW, STARTUP_TIME]) (by norm_num [ntW, STARTUP_TIME])
    (by norm_num [ntW, MIN_EXECUTION_TIME]) (by norm_num [ntW, MIN_EXECUTION_TIME])

/-- C8 amended: when a previous field exists and its n_done is positive, the
bad-readout handler decrements its n_done by exactly one and resets its
jd_next to the current jd; every other entry of the sequence is unchanged. -/
theorem c8_amended_decrement (sequence : List Field) (ip : Nat) (jd : ℚ)
    (fp : Field) (h : sequence.get? ip = some fp) (hpos : fp.n_done > 0) :
    bad_readout_update sequence (ip : Int) jd =
      sequence.set ip { fp with n_done := fp.n_done - 1, jd_next := jd } ∧
    ∀ j : Nat, j ≠ ip →
      (bad_readout_update sequence (ip : Int) jd).get? j = sequence.get? j := by
  rw [List.get?_eq_some] at h
  obtain ⟨hlen, hget⟩ := h
  unfold bad_readout_update
  have hc : (0:Int) ≤ (ip:Int) ∧ ((ip:Int)).toNat < sequence.length := by
    simpa using hlen
  rw [dif_pos hc]
  simp only [Int.toNat_natCast]
  have hg : sequence.get ⟨ip, hc.2⟩ = fp := hget
  rw [hg, if_pos hpos]
  refine ⟨rfl, fun j hj => ?_⟩
  exact List.get?_set_ne _ _ (fun hEq => hj hEq.symm)

/-- C8 witness: one-field sequence with two completed visits. -/
theorem c8_witness :
    bad_readout_update [fQ] (0 : Int) 7 =
      [fQ].set 0 { fQ with n_done := fQ.n_done - 1, jd_next := 7 } ∧
    ∀ j : Nat, j ≠ 0 →
      (bad_readout_update [fQ] (0 : Int) 7).get? j = ([fQ] : List Field).get? j :=
  c8_amended_decrement [fQ] 0 7 fQ (by simp) (by norm_num [fQ, zf])

/-- C9 amended: for ra and lst in [0, 24) the returned hour angle lies in
[-12, +12]; the upper endpoint +12 is attained exactly when lst - ra = -12
(the code's boundary test maps -12 to +12 instead of keeping -12). -/
theorem c9_amended_ha_range (ra lst : ℚ) (h1 : 0 ≤ ra) (h2 : ra < 24)
    (h3 : 0 ≤ lst) (h4 : lst < 24) :
    -12 ≤ get_ha ra lst ∧ get_ha ra lst ≤ 12 ∧
    (get_ha ra lst = 12 ↔ lst - ra = -12) := by
  simp only [get_ha]
  split_ifs with hA hB
  · refine ⟨by linarith, by linarith, ?_⟩
    constructor <;> intro h <;> linarith
  · push_neg at hA
    refine ⟨by linarith, by linarith, ?_⟩
    constructor <;> intro h <;> linarith
  · push_neg at hA hB
    refine ⟨by linarith, by linarith, ?_⟩
    constructor <;> intro h <;> linarith

/-- C9 witness at ra = 3, lst = 5. -/
theorem c9_witness :
    -12 ≤ get_ha 3 5 ∧ get_ha 3 5 ≤ 12 ∧ (get_ha 3 5 = 12 ↔ (5:ℚ) - 3 = -12) :=
  c9_amended_ha_range 3 5 (by norm_num) (by norm_num) (by norm_num) (by norm_num)

/-- C10: both TooLate scans of get_next_field run `for(i=0;i<=num_fields;i++)`
and read the entry one past the last field.  On the one-field list [fLate]
the selector's result depends on that out-of-range entry: with stale memory
that looks like a better TooLate MustDo record it returns index 1 = num_fields
(an out-of-range index), and with inert stale memory it returns 0. -/
theorem c10_oob_read :
    ([fLate] : List Field).length = 1 ∧
    (get_next_field [fLate] (-1) 0 false oobLate pairF).index = 1 ∧
    (get_next_field [fLate] (-1) 0 false zf pairF).index = 0 := by
  norm_num [get_next_field, updated_fields, update_field_status, MIN_EXECUTION_TIME,
    is_ready_must_do, is_do_now, is_do_now_dark, is_do_now_flat, is_ready_other,
    is_too_late, is_too_late_must_do, fold_nleft_min, first_idx, scan_min_tl,
    scan_max_tl, n_left, List.countP, List.countP.go, getEntry, setEntry,
    shorten_interval, MIN_INTERVAL, pairF, zf, fLate, oobLate]

/-- C3 amended: when a Ready MustDo field exists (and, to stay clear of the
C sentinels 10000.0 and 100000, every Ready MustDo field has time_left below
10000 and visits-remaining below 100000), the selector returns the index of a
Ready MustDo field that has n_required = 6 or minimal visits-remaining among
Ready MustDo fields, and among those candidates it has the least time_left,
with ties broken by lowest index; visits-remaining is not a tie-break. -/
theorem c3_amended_ready_mustdo (sequence : List Field) (i_prev : Int) (jd : ℚ)
    (w : Bool) (oob : Field) (paired : Field → Field → Bool)
    (h1 : ∃ f ∈ updated_fields sequence jd w,
      f.status = READY_STATUS ∧ f.survey_code = MUSTDO_SURVEY_CODE)
    (hb : ∀ f ∈ updated_fields sequence jd w,
      f.status = READY_STATUS ∧ f.survey_code = MUSTDO_SURVEY_CODE →
      f.time_left < 10000 ∧ n_left f < 100000) :
    ∃ k : Nat, ∃ hk : k < (updated_fields sequence jd w).length,
      (get_next_field sequence i_prev jd w oob paired).index = (k : Int) ∧
      ((updated_fields sequence jd w).get ⟨k, hk⟩).status = READY_STATUS ∧
      ((updated_fields sequence jd w).get ⟨k, hk⟩).survey_code =
        MUSTDO_SURVEY_CODE ∧
      (((updated_fields sequence jd w).get ⟨k, hk⟩).n_required = 6 ∨
        n_left ((updated_fields sequence jd w).get ⟨k, hk⟩) =
          fold_nleft_min is_ready_must_do (updated_fields sequence jd w) 100000) ∧
      (∀ j : Nat, ∀ hj : j < (updated_fields sequence jd w).length,
        ((updated_fields sequence jd w).get ⟨j, hj⟩).status = READY_STATUS →
        ((updated_fields sequence jd w).get ⟨j, hj⟩).survey_code =
          MUSTDO_SURVEY_CODE →
        (((updated_fields sequence jd w).get ⟨j, hj⟩).n_required = 6 ∨
          n_left ((updated_fields sequence jd w).get ⟨j, hj⟩) =
            fold_nleft_min is_ready_must_do (updated_fields sequence jd w)
              100000) →
        ((updated_fields sequence jd w).get ⟨k, hk⟩).time_left ≤
          ((updated_fields sequence jd w).get ⟨j, hj⟩).time_left ∧
        (((updated_fields sequence jd w).get ⟨j, hj⟩).time_left =
          ((updated_fields sequence jd w).get ⟨k, hk⟩).time_left → k ≤ j)) := by
  obtain ⟨f0, hf0, hs0, hc0⟩ := h1
  have hcount : 0 < (updated_fields sequence jd w).countP is_ready_must_do := by
    rw [List.countP_pos]
    exact ⟨f0, hf0, by simp [is_ready_must_do, hs0, hc0]⟩
  have hcand : ∃ f ∈ updated_fields sequence jd w,
      (is_ready_must_do f && decide (f.n_required = 6 ∨
        n_left f = fold_nleft_min is_ready_must_do (updated_fields sequence jd w)
          100000)) ∧ f.time_left < 10000 := by
    rcases fold_nleft_min_form is_ready_must_do (updated_fields sequence jd w)
        100000 with hA | ⟨g, hg, hpg, hEq⟩
    · exfalso
      have hle := fold_nleft_min_le_mem is_ready_must_do
        (updated_fields sequence jd w) 100000 f0 hf0
        (by simp [is_ready_must_do, hs0, hc0])
      rw [hA] at hle
      have hub := (hb f0 hf0 ⟨hs0, hc0⟩).2
      omega
    · have hpg2 : g.status = READY_STATUS ∧ g.survey_code = MUSTDO_SURVEY_CODE := by
        simpa [is_ready_must_do] using hpg
      refine ⟨g, hg, ?_, (hb g hg hpg2).1⟩
      simp [is_ready_must_do, hpg2.1, hpg2.2, hEq]
  have hlt := scan_min_tl_lt_of_exists
    (fun f => is_ready_must_do f && decide (f.n_required = 6 ∨
      n_left f = fold_nleft_min is_ready_must_do (updated_fields sequence jd w)
        100000))
    (updated_fields sequence jd w) 0 (-1, 10000) hcand
  rcases scan_min_tl_form
    (fun f => is_ready_must_do f && decide (f.n_required = 6 ∨
      n_left f = fold_nleft_min is_ready_must_do (updated_fields sequence jd w)
        100000))
    (updated_fields sequence jd w) 0 (-1, 10000) with hA | ⟨k, hk, hpk, hltk, hEq⟩
  · rw [hA] at hlt
    norm_num at hlt
  · have hpk2 : ((updated_fields sequence jd w).get ⟨k, hk⟩).status =
        READY_STATUS ∧
        ((updated_fields sequence jd w).get ⟨k, hk⟩).survey_code =
          MUSTDO_SURVEY_CODE ∧
        (((updated_fields sequence jd w).get ⟨k, hk⟩).n_required = 6 ∨
          n_left ((updated_fields sequence jd w).get ⟨k, hk⟩) =
            fold_nleft_min is_ready_must_do (updated_fields sequence jd w)
              100000) := by
      simpa [is_ready_must_do, and_assoc] using hpk
    refine ⟨k, hk, ?_, hpk2.1, hpk2.2.1, hpk2.2.2, ?_⟩
    · simp only [get_next_field]
      rw [if_pos hcount, hEq]
      simp
    · intro j hj hjs hjc hjcand
      have hpj : (is_ready_must_do ((updated_fields sequence jd w).get ⟨j, hj⟩) &&
          decide (((updated_fields sequence jd w).get ⟨j, hj⟩).n_required = 6 ∨
            n_left ((updated_fields sequence jd w).get ⟨j, hj⟩) =
              fold_nleft_min is_ready_must_do (updated_fields sequence jd w)
                100000)) = true := by
        simp only [is_ready_must_do, Bool.and_eq_true, decide_eq_true_eq]
        exact ⟨⟨hjs, hjc⟩, hjcand⟩
      constructor
      · have hmin := scan_min_tl_le_mem
          (fun f => is_ready_must_do f && decide (f.n_required = 6 ∨
            n_left f = fold_nleft_min is_ready_must_do
              (updated_fields sequence jd w) 100000))
          (updated_fields sequence jd w) 0 (-1, 10000)
          ((updated_fields sequence jd w).get ⟨j, hj⟩)
          (List.get_mem _ _ _) hpj
        rw [hEq] at hmin
        exact hmin
      · intro hjk
        have hfirst := scan_min_tl_first
          (fun f => is_ready_must_do f && decide (f.n_required = 6 ∨
            n_left f = fold_nleft_min is_ready_must_do
              (updated_fields sequence jd w) 100000))
          (updated_fields sequence jd w) 0 (-1, 10000) (by norm_num) j hj hpj
          (by rw [hEq]; exact hjk)
        rw [hEq] at hfirst
        have hfirst2 : (k : Int) ≤ (j : Int) := by
          simpa using hfirst
        exact_mod_cast hfirst2

/-- C2 amended: with no Ready MustDo field and a TooLate MustDo field, the
selector picks the TooLate MustDo entry with least time_left — scanning the
live fields and the entry one past the end, ties to the lowest index — and
applies shorten_interval followed by a status re-update to it; it returns
that entry's index unconditionally, even when shortening failed and the
entry became NotDoable (the field bound keeps the C sentinel 10000.0 honest). -/
theorem c2_amended_late_mustdo (sequence : List Field) (i_prev : Int) (jd : ℚ)
    (w : Bool) (oob : Field) (paired : Field → Field → Bool)
    (hnrm : ∀ f ∈ updated_fields sequence jd w,
      ¬ (f.status = READY_STATUS ∧ f.survey_code = MUSTDO_SURVEY_CODE))
    (h1 : ∃ f ∈ updated_fields sequence jd w,
      f.status = TOO_LATE_STATUS ∧ f.survey_code = MUSTDO_SURVEY_CODE)
    (hb : ∀ f ∈ updated_fields sequence jd w,
      f.status = TOO_LATE_STATUS ∧ f.survey_code = MUSTDO_SURVEY_CODE →
      f.time_left < 10000) :
    ∃ k : Nat, ∃ hk : k < (updated_fields sequence jd w ++ [oob]).length,
      (get_next_field sequence i_prev jd w oob paired).index = (k : Int) ∧
      ((updated_fields sequence jd w ++ [oob]).get ⟨k, hk⟩).status =
        TOO_LATE_STATUS ∧
      ((updated_fields sequence jd w ++ [oob]).get ⟨k, hk⟩).survey_code =
        MUSTDO_SURVEY_CODE ∧
      (∀ j : Nat, ∀ hj : j < (updated_fields sequence jd w ++ [oob]).length,
        ((updated_fields sequence jd w ++ [oob]).get ⟨j, hj⟩).status =
          TOO_LATE_STATUS →
        ((updated_fields sequence jd w ++ [oob]).get ⟨j, hj⟩).survey_code =
          MUSTDO_SURVEY_CODE →
        ((updated_fields sequence jd w ++ [oob]).get ⟨k, hk⟩).time_left ≤
          ((updated_fields sequence jd w ++ [oob]).get ⟨j, hj⟩).time_left ∧
        (((updated_fields sequence jd w ++ [oob]).get ⟨j, hj⟩).time_left =
          ((updated_fields sequence jd w ++ [oob]).get ⟨k, hk⟩).time_left →
          k ≤ j)) ∧
      (get_next_field sequence i_prev jd w oob paired).state =
        setEntry ⟨updated_fields sequence jd w, oob⟩ k
          { update_field_status (shorten_interval
              ((updated_fields sequence jd w ++ [oob]).get ⟨k, hk⟩)) jd w with
            selection_code := SelectionCode.LEAST_TIME_LATE_MUST_DO } := by
  have hz1 : (updated_fields sequence jd w).countP is_ready_must_do = 0 :=
    List.countP_eq_zero.mpr (fun f hf => by
      simpa [is_ready_must_do] using hnrm f hf)
  have hng1 : ¬ 0 < (updated_fields sequence jd w).countP is_ready_must_do := by
    rw [hz1]
    exact lt_irrefl 0
  obtain ⟨f0, hf0, hs0, hc0⟩ := h1
  have hcount : 0 < (updated_fields sequence jd w).countP is_too_late_must_do := by
    rw [List.countP_pos]
    exact ⟨f0, hf0, by simp [is_too_late_must_do, hs0, hc0]⟩
  have hcand : ∃ f ∈ updated_fields sequence jd w ++ [oob],
      is_too_late_must_do f ∧ f.time_left < 10000 :=
    ⟨f0, List.mem_append_left _ hf0,
      by simp [is_too_late_must_do, hs0, hc0], hb f0 hf0 ⟨hs0, hc0⟩⟩
  have hlt := scan_min_tl_lt_of_exists is_too_late_must_do
    (updated_fields sequence jd w ++ [oob]) 0 (-1, 10000) hcand
  rcases scan_min_tl_form is_too_late_must_do
    (updated_fields sequence jd w ++ [oob]) 0 (-1, 10000) with
    hA | ⟨k, hk, hpk, hltk, hEq⟩
  · rw [hA] at hlt
    norm_num at hlt
  · have hpk2 : ((updated_fields sequence jd w ++ [oob]).get ⟨k, hk⟩).status =
        TOO_LATE_STATUS ∧
        ((updated_fields sequence jd w ++ [oob]).get ⟨k, hk⟩).survey_code =
          MUSTDO_SURVEY_CODE := by
      simpa [is_too_late_must_do] using hpk
    refine ⟨k, hk, ?_, hpk2.1, hpk2.2, ?_, ?_⟩
    · simp only [get_next_field]
      rw [if_neg hng1, if_pos hcount, hEq]
      simp
    · intro j hj hjs hjc
      have hpj : is_too_late_must_do
          ((updated_fields sequence jd w ++ [oob]).get ⟨j, hj⟩) = true := by
        simp only [is_too_late_must_do, decide_eq_true_eq]
        exact ⟨hjs, hjc⟩
      constructor
      · have hmin := scan_min_tl_le_mem is_too_late_must_do
          (updated_fields sequence jd w ++ [oob]) 0 (-1, 10000)
          ((updated_fields sequence jd w ++ [oob]).get ⟨j, hj⟩)
          (List.get_mem _ _ _) hpj
        rw [hEq] at hmin
        exact hmin
      · intro hjk
        have hfirst := scan_min_tl_first is_too_late_must_do
          (updated_fields sequence jd w ++ [oob]) 0 (-1, 10000) (by norm_num)
          j hj hpj (by rw [hEq]; exact hjk)
        rw [hEq] at hfirst
        have hfirst2 : (k : Int) ≤ (j : Int) := by
          simpa using hfirst
        exact_mod_cast hfirst2
    · simp only [get_next_field]
      rw [if_neg hng1, if_pos hcount, hEq]
      simp only [zero_add, Int.toNat_natCast]
      split_ifs with hpos
      · simp only [getEntry_eq_get_append (updated_fields sequence jd w) oob k hk]
      · exact absurd (by simp : (0:Int) ≤ ((k : Int),
          ((updated_fields sequence jd w ++ [oob]).get ⟨k, hk⟩).time_left).1) hpos

/-- C1 amended: a DoNow dark or dome-flat forces a DoNow return only when no
MustDo field is Ready or TooLate; under those side conditions the returned
index is that of a field whose status is DoNow (the two MustDo tiers run
first and otherwise pre-empt it). -/
theorem c1_amended_do_now (sequence : List Field) (i_prev : Int) (jd : ℚ)
    (w : Bool) (oob : Field) (paired : Field → Field → Bool)
    (hdark : ∃ f ∈ updated_fields sequence jd w,
      f.status = DO_NOW_STATUS ∧
      (f.shutter = DARK_CODE ∨ f.shutter = DOME_FLAT_CODE))
    (hnrm : ∀ f ∈ updated_fields sequence jd w,
      ¬ (f.status = READY_STATUS ∧ f.survey_code = MUSTDO_SURVEY_CODE))
    (hnlm : ∀ f ∈ updated_fields sequence jd w,
      ¬ (f.status = TOO_LATE_STATUS ∧ f.survey_code = MUSTDO_SURVEY_CODE)) :
    ∃ k : Nat, ∃ hk : k < (updated_fields sequence jd w).length,
      (get_next_field sequence i_prev jd w oob paired).index = (k : Int) ∧
      ((updated_fields sequence jd w).get ⟨k, hk⟩).status = DO_NOW_STATUS := by
  obtain ⟨fd, hfd, hds, hdk⟩ := hdark
  have hng1 : ¬ 0 < (updated_fields sequence jd w).countP is_ready_must_do := by
    rw [List.countP_eq_zero.mpr (fun f hf => by
      simpa [is_ready_must_do] using hnrm f hf)]
    exact lt_irrefl 0
  have hng2 : ¬ 0 < (updated_fields sequence jd w).countP is_too_late_must_do := by
    rw [List.countP_eq_zero.mpr (fun f hf => by
      simpa [is_too_late_must_do] using hnlm f hf)]
    exact lt_irrefl 0
  have hcount : 0 < (updated_fields sequence jd w).countP is_do_now := by
    rw [List.countP_pos]
    exact ⟨fd, hfd, by simp [is_do_now, hds]⟩
  rcases first_idx_form is_do_now_flat (updated_fields sequence jd w) 0 with
    hF | ⟨kF, hkF, hEqF, hpF⟩
  · rcases first_idx_form is_do_now_dark (updated_fields sequence jd w) 0 with
      hD | ⟨kD, hkD, hEqD, hpD⟩
    · have hnn := first_idx_nonneg is_do_now (updated_fields sequence jd w) 0
        ⟨fd, hfd, by simp [is_do_now, hds]⟩ le_rfl
      rcases first_idx_form is_do_now (updated_fields sequence jd w) 0 with
        hN | ⟨kN, hkN, hEqN, hpN⟩
      · rw [hN] at hnn
        norm_num at hnn
      · refine ⟨kN, hkN, ?_, by simpa [is_do_now] using hpN⟩
        simp only [get_next_field]
        rw [if_neg hng1, if_neg hng2, if_pos hcount, hF,
          if_neg (by norm_num : ¬ (0:Int) ≤ -1), hD,
          if_neg (by norm_num : ¬ (0:Int) ≤ -1), hEqN,
          if_pos (by simp : (0:Int) ≤ 0 + (kN : Int))]
        simp
    · have hpD2 : ((updated_fields sequence jd w).get ⟨kD, hkD⟩).status =
          DO_NOW_STATUS := by
        have := hpD
        simp only [is_do_now_dark, decide_eq_true_eq] at this
        exact this.1
      refine ⟨kD, hkD, ?_, hpD2⟩
      simp only [get_next_field]
      rw [if_neg hng1, if_neg hng2, if_pos hcount, hF,
        if_neg (by norm_num : ¬ (0:Int) ≤ -1), hEqD,
        if_pos (by simp : (0:Int) ≤ 0 + (kD : Int))]
      simp
  · have hpF2 : ((updated_fields sequence jd w).get ⟨kF, hkF⟩).status =
        DO_NOW_STATUS := by
      have := hpF
      simp only [is_do_now_flat, decide_eq_true_eq] at this
      exact this.1
    refine ⟨kF, hkF, ?_, hpF2⟩
    simp only [get_next_field]
    rw [if_neg hng1, if_neg hng2, if_pos hcount, hEqF,
      if_pos (by simp : (0:Int) ≤ 0 + (kF : Int))]
    simp

/-- C1 witness: a single DoNow dark at jd = 0 with no MustDo fields. -/
theorem c1_witness :
    ∃ k : Nat, ∃ hk : k < (updated_fields [dk] 0 false).length,
      (get_next_field [dk] (-1) 0 false zf pairF).index = (k : Int) ∧
      ((updated_fields [dk] 0 false).get ⟨k, hk⟩).status = DO_NOW_STATUS :=
  c1_amended_do_now [dk] (-1) 0 false zf pairF
    (by norm_num [updated_fields, update_field_status, dk, zf, MIN_EXECUTION_TIME])
    (by norm_num [updated_fields, update_field_status, dk, zf, MIN_EXECUTION_TIME])
    (by norm_num [updated_fields, update_field_status, dk, zf, MIN_EXECUTION_TIME])

/-- C2 witness: a single TooLate MustDo sky field at jd = 0 with an inert
one-past entry. -/
theorem c2_witness :
    ∃ k : Nat, ∃ hk : k < (updated_fields [fLate] 0 false ++ [zf]).length,
      (get_next_field [fLate] (-1) 0 false zf pairF).index = (k : Int) ∧
      ((updated_fields [fLate] 0 false ++ [zf]).get ⟨k, hk⟩).status =
        TOO_LATE_STATUS ∧
      ((updated_fields [fLate] 0 false ++ [zf]).get ⟨k, hk⟩).survey_code =
        MUSTDO_SURVEY_CODE ∧
      (∀ j : Nat, ∀ hj : j < (updated_fields [fLate] 0 false ++ [zf]).length,
        ((updated_fields [fLate] 0 false ++ [zf]).get ⟨j, hj⟩).status =
          TOO_LATE_STATUS →
        ((updated_fields [fLate] 0 false ++ [zf]).get ⟨j, hj⟩).survey_code =
          MUSTDO_SURVEY_CODE →
        ((updated_fields [fLate] 0 false ++ [zf]).get ⟨k, hk⟩).time_left ≤
          ((updated_fields [fLate] 0 false ++ [zf]).get ⟨j, hj⟩).time_left ∧
        (((updated_fields [fLate] 0 false ++ [zf]).get ⟨j, hj⟩).time_left =
          ((updated_fields [fLate] 0 false ++ [zf]).get ⟨k, hk⟩).time_left →
          k ≤ j)) ∧
      (get_next_field [fLate] (-1) 0 false zf pairF).state =
        setEntry ⟨updated_fields [fLate] 0 false, zf⟩ k
          { update_field_status (shorten_interval
              ((updated_fields [fLate] 0 false ++ [zf]).get ⟨k, hk⟩)) 0 false with
            selection_code := SelectionCode.LEAST_TIME_LATE_MUST_DO } :=
  c2_amended_late_mustdo [fLate] (-1) 0 false zf pairF
    (by norm_num [updated_fields, update_field_status, fLate, zf,
      MIN_EXECUTION_TIME])
    (by norm_num [updated_fields, update_field_status, fLate, zf,
      MIN_EXECUTION_TIME])
    (by norm_num [updated_fields, update_field_status, fLate, zf,
      MIN_EXECUTION_TIME])

/-- C3 witness: the two Ready MustDo fields fA and fB at jd = 0. -/
theorem c3_witness :
    ∃ k : Nat, ∃ hk : k < (updated_fields [fA, fB] 0 false).length,
      (get_next_field [fA, fB] (-1) 0 false zf pairF).index = (k : Int) ∧
      ((updated_fields [fA, fB] 0 false).get ⟨k, hk⟩).status = READY_STATUS ∧
      ((updated_fields [fA, fB] 0 false).get ⟨k, hk⟩).survey_code =
        MUSTDO_SURVEY_CODE ∧
      (((updated_fields [fA, fB] 0 false).get ⟨k, hk⟩).n_required = 6 ∨
        n_left ((updated_fields [fA, fB] 0 false).get ⟨k, hk⟩) =
          fold_nleft_min is_ready_must_do (updated_fields [fA, fB] 0 false)
            100000) ∧
      (∀ j : Nat, ∀ hj : j < (updated_fields [fA, fB] 0 false).length,
        ((updated_fields [fA, fB] 0 false).get ⟨j, hj⟩).status = READY_STATUS →
        ((updated_fields [fA, fB] 0 false).get ⟨j, hj⟩).survey_code =
          MUSTDO_SURVEY_CODE →
        (((updated_fields [fA, fB] 0 false).get ⟨j, hj⟩).n_required = 6 ∨
          n_left ((updated_fields [fA, fB] 0 false).get ⟨j, hj⟩) =
            fold_nleft_min is_ready_must_do (updated_fields [fA, fB] 0 false)
              100000) →
        ((updated_fields [fA, fB] 0 false).get ⟨k, hk⟩).time_left ≤
          ((updated_fields [fA, fB] 0 false).get ⟨j, hj⟩).time_left ∧
        (((updated_fields [fA, fB] 0 false).get ⟨j, hj⟩).time_left =
          ((updated_fields [fA, fB] 0 false).get ⟨k, hk⟩).time_left → k ≤ j)) :=
  c3_amended_ready_mustdo [fA, fB] (-1) 0 false zf pairF
    (by norm_num [updated_fields, update_field_status, fA, fB, zf,
      MIN_EXECUTION_TIME])
    (by norm_num [updated_fields, update_field_status, fA, fB, zf,
      MIN_EXECUTION_TIME, n_left])

end LS4
